import Mathlib

/-!
Shallow embedding of `src/db_heimdall.js` (hubot-db-heimdall): a hubot script
that grants temporary database access.  Two entry points are modelled:

* the access-confirmation HTTP handler `GET /heimdall/access/:nonce`
  (source lines 44-91), embedded as `DbHeimdall.confirmVisit`;
* the chat command `give me <level> access to <env> database`
  (source lines 93-234), embedded as `DbHeimdall.requestAccess`.

JavaScript dynamic values are modelled by `DbHeimdall.JsVal`; the hubot brain
is an association list; the outbound HTTP and ACL calls are oracles passed in
as arguments, and the user-visible effects (messages sent, brain writes, HTTP
requests issued, ACL authorizations issued) are returned as explicit data.
-/

namespace DbHeimdall

mutual

/-- Model of a JavaScript value as stored in the hubot brain or produced by
`JSON.parse`: `undefined` is `undefined`, `null` is `null`, and objects are
ordered field lists (JS objects preserve string-key insertion order). -/
inductive JsVal where
  | undefined : JsVal
  | null : JsVal
  | str (s : String) : JsVal
  | num (n : Int) : JsVal
  | bool (b : Bool) : JsVal
  | obj (fields : JsFields) : JsVal

/-- Ordered field list of a JS object (avoids a nested `List` inductive). -/
inductive JsFields where
  | nil : JsFields
  | cons (key : String) (val : JsVal) (rest : JsFields) : JsFields

end

end DbHeimdall

deriving instance DecidableEq for DbHeimdall.JsVal

deriving instance DecidableEq for DbHeimdall.JsFields

namespace DbHeimdall

/-- Property read `o[k]` on an object: first field with the given key,
`undefined` when absent. -/
def JsFields.getF : JsFields → String → JsVal
  | .nil, _ => .undefined
  | .cons k v rest, key => if key = k then v else JsFields.getF rest key

/-- Property read `v.k`: `undefined` on primitives (never called on
`null`/`undefined` bases by the handlers except where modelled explicitly). -/
def jsGetField : JsVal → String → JsVal
  | .obj fs, k => fs.getF k
  | _, _ => .undefined

/-- String conversion `String(v)` / `'' + v` for the values that reach it. -/
def jsToString : JsVal → String
  | .undefined => "undefined"
  | .null => "null"
  | .str s => s
  | .num n => toString n
  | .bool b => if b then "true" else "false"
  | .obj _ => "[object Object]"

/-- A JS number that is either an integer or `NaN` (the only numbers the
script manipulates are integer milliseconds/seconds, so no float model). -/
inductive JsNum where
  | nan : JsNum
  | int (i : Int) : JsNum
deriving DecidableEq

/-- Digits of a decimal numeral to a natural number, `none` on a non-digit. -/
def digitsToNat : List Char → Option Nat
  | [] => none
  | cs => cs.foldl (fun acc c => match acc with
      | none => none
      | some n => if c.isDigit then some (10 * n + (c.toNat - 48)) else none)
      (some 0)

/-- `Number(s)` for a string, restricted to optionally signed decimal integer
numerals (the shapes the script can meet): trimmed empty string is `0`,
anything else non-integral is `NaN`. -/
def strToNumber (s : String) : JsNum :=
  match s.trim.toList with
  | [] => .int 0
  | '-' :: rest => match digitsToNat rest with
      | some n => .int (-(n : Int))
      | none => .nan
  | cs => match digitsToNat cs with
      | some n => .int (n : Int)
      | none => .nan

/-- `ToNumber` coercion applied by the arithmetic in the TTL computation. -/
def jsToNumber : JsVal → JsNum
  | .undefined => .nan
  | .null => .int 0
  | .str s => strToNumber s
  | .num n => .int n
  | .bool b => .int (if b then 1 else 0)
  | .obj _ => .nan

/-- JS multiplication on the number model (`NaN` propagates). -/
def jsMul : JsNum → JsNum → JsNum
  | .int a, .int b => .int (a * b)
  | _, _ => .nan

/-- JS subtraction on the number model (`NaN` propagates). -/
def jsSub : JsNum → JsNum → JsNum
  | .int a, .int b => .int (a - b)
  | _, _ => .nan

/-- The comparison `ttl < 0`: false on `NaN` (as in JS). -/
def jsLtZero : JsNum → Bool
  | .int a => decide (a < 0)
  | .nan => false

/-- The hubot brain's private key-value data, as an association list. -/
abbrev Store := List (String × JsVal)

/-- Raw association-list lookup. -/
def brainLookup : Store → String → Option JsVal
  | [], _ => none
  | (k, v) :: rest, key => if key = k then some v else brainLookup rest key

/-- Remove every binding of a key (hubot `brain.remove` deletes the key). -/
def removeKey : Store → String → Store
  | [], _ => []
  | (k, v) :: rest, key =>
      if k = key then removeKey rest key else (k, v) :: removeKey rest key

/-- Hubot `brain.get`: returns `null` for a missing key (`data[key] ? null`),
which also maps a stored `undefined` to `null`. -/
def brainGet (st : Store) (key : String) : JsVal :=
  match brainLookup st key with
  | none => .null
  | some .undefined => .null
  | some v => v

/-- Hubot `brain.set`: bind the key, replacing any previous binding. -/
def brainSetStore (st : Store) (key : String) (v : JsVal) : Store :=
  (key, v) :: removeKey st key

end DbHeimdall

namespace DbHeimdall

/-- Remove every space character: `s.replace(/ /g, '')` (only U+0020, exactly
as the regex does). -/
def stripSpaces (s : String) : String :=
  ⟨s.toList.filter (fun c => c ≠ ' ')⟩

/-- `toLowerCase` character by character. -/
def jsToLowerCase (s : String) : String :=
  ⟨s.toList.map Char.toLower⟩

/-- Whether the second list is an initial segment of the first. -/
def beginsWith : List Char → List Char → Bool
  | _, [] => true
  | [], _ :: _ => false
  | c :: cs, p :: ps => c = p && beginsWith cs ps

/-- Whether the second list occurs as a contiguous run inside the first. -/
def charsContain (hay pat : List Char) : Bool :=
  if beginsWith hay pat then true
  else
    match hay with
    | [] => false
    | _ :: rest => charsContain rest pat

/-- Case-insensitive substring test for the crawler check
`userAgent.match(/Slackbot/i) !== null`. -/
def isSlackbotUA (ua : String) : Bool :=
  charsContain (ua.toList.map Char.toLower) "slackbot".toList

/-- The metadata of one inbound confirmation request: the `:nonce` route
parameter, the optional `user-agent`, `x-real-ip` and `x-forwarded-for`
headers, and the transport-layer peer address `req.connection.remoteAddress`. -/
structure ConfirmReq where
  nonce : String
  userAgent : Option String
  xRealIp : Option String
  xForwardedFor : Option String
  remoteAddress : String
deriving DecidableEq

/-- The argument record of `heimdall.allowAccessToIp` (source lines 76-80). -/
structure AclParams where
  DBSecurityGroupName : Option String
  CIDRIP : String
  ttl : JsNum
deriving DecidableEq

/-- The response produced by the confirmation handler: `res.send(200)`, one of
the three rendered templates, or an uncaught exception inside the handler. -/
inductive Response where
  | send200 : Response
  | renderNotFound : Response
  | renderError (e : String) : Response
  | renderIpSuccess (ip : String) (ttl : String) : Response
  | threw (msg : String) : Response
deriving DecidableEq

/-- Everything observable about one confirmation visit: the response, the
brain store after the visit, and the ACL authorization calls issued. -/
structure ConfirmResult where
  response : Response
  store : Store
  aclCalls : List AclParams

/-- The brain key for a nonce: `util.format('heimdall_access_%s', nonce)`. -/
def brainKey (nonce : String) : String :=
  "heimdall_access_" ++ nonce

/-- Characters before the first comma: `s.split(',')[0]`. -/
def firstCommaEntry (s : String) : String :=
  ⟨s.toList.takeWhile (fun c => c ≠ ',')⟩

/-- The IP precedence of source lines 60-65: `x-real-ip` if present (spaces
stripped), else first comma-separated entry of `x-forwarded-for` (spaces
stripped), else the transport peer address. -/
def resolveIp (req : ConfirmReq) : String :=
  match req.xRealIp with
  | some v => stripSpaces v
  | none =>
    match req.xForwardedFor with
    | some v => stripSpaces (firstCommaEntry v)
    | none => req.remoteAddress

/-- The address actually used: resolved IP with the `/32` suffix appended
(source line 68). -/
def clientIp (req : ConfirmReq) : String :=
  resolveIp req ++ "/32"

/-- The static `SecGroupForVaultPath` table (source lines 24-27), accessed
with a JS property key (so a miss yields `undefined`, modelled as `none`). -/
def SecGroupForVaultPath (key : String) : Option String :=
  if key = "db_production" then some "db-uwhisp-production"
  else if key = "db_test" then some "db-uwhisp-test"
  else none

/-- `util.format('%d minutes', Math.floor(ttl / 60000))`. -/
def minutesString : JsNum → String
  | .int i => toString (Int.fdiv i 60000) ++ " minutes"
  | .nan => "NaN minutes"

/-- The TTL of source line 71:
`access.lease_duration * 1000 - (now - access.requested)`. -/
def leaseTtl (fields : JsFields) (now : Int) : JsNum :=
  jsSub (jsMul (jsToNumber (fields.getF "lease_duration")) (.int 1000))
        (jsSub (.int now) (jsToNumber (fields.getF "requested")))

/-- The object branch of the confirmation handler (source lines 59-90),
reached once the lookup produced an object-shaped record: compute the TTL;
if negative render the not-found page, else call `allowAccessToIp` and
render according to its callback; in either case fall through to
`brain.remove` at line 90. -/
def confirmWithRecord (st : Store) (req : ConfirmReq) (now : Int)
    (aclErr : Option String) (fields : JsFields) : ConfirmResult :=
  let ip := clientIp req
  let ttl := leaseTtl fields now
  if jsLtZero ttl then
    ⟨.renderNotFound, removeKey st (brainKey req.nonce), []⟩
  else
    let params : AclParams :=
      ⟨SecGroupForVaultPath (jsToString (fields.getF "vault_path")), ip, ttl⟩
    match aclErr with
    | some e => ⟨.renderError e, removeKey st (brainKey req.nonce), [params]⟩
    | none =>
        ⟨.renderIpSuccess ip (minutesString ttl),
         removeKey st (brainKey req.nonce), [params]⟩

/-- The lookup step (source lines 50-57): a value that is not object-shaped
(`typeof !== 'object' || === null`, where a missing key reads as `null`)
renders the not-found page and returns early, leaving the store untouched. -/
def confirmLookup (st : Store) (req : ConfirmReq) (now : Int)
    (aclErr : Option String) : ConfirmResult :=
  match brainGet st (brainKey req.nonce) with
  | .obj fields => confirmWithRecord st req now aclErr fields
  | _ => ⟨.renderNotFound, st, []⟩

/-- The confirmation handler (source lines 44-91).  `now` is
`new Date().getTime()`; `aclErr` is the error the `allowAccessToIp` callback
receives (`none` = success).  A missing `user-agent` header makes
`req.headers['user-agent'].match(...)` throw a TypeError before anything
else happens; a crawler user agent is answered 200 immediately; everything
else proceeds to the brain lookup. -/
def confirmVisit (st : Store) (req : ConfirmReq) (now : Int)
    (aclErr : Option String) : ConfirmResult :=
  match req.userAgent with
  | none => ⟨.threw "TypeError", st, []⟩
  | some ua =>
    if isSlackbotUA ua then ⟨.send200, st, []⟩
    else confirmLookup st req now aclErr

/-- One visit's inputs: the request, the clock value, and the ACL outcome. -/
structure Visit where
  req : ConfirmReq
  now : Int
  aclErr : Option String

/-- Apply one visit. -/
def applyVisit (st : Store) (v : Visit) : ConfirmResult :=
  confirmVisit st v.req v.now v.aclErr

/-- The store after a sequence of visits. -/
def runVisits (st : Store) : List Visit → Store
  | [] => st
  | v :: vs => runVisits (applyVisit st v).store vs

/-- A genuine (non-crawler) visit: the `user-agent` header is present and
does not match the crawler pattern. -/
def genuineVisit (req : ConfirmReq) : Bool :=
  match req.userAgent with
  | some ua => !isSlackbotUA ua
  | none => false

/-- A terminal confirmation outcome: one of the rendered pages (Granted,
Failed, or the shared Expired/NotFound page). -/
def Response.isTerminal : Response → Bool
  | .renderNotFound => true
  | .renderError _ => true
  | .renderIpSuccess _ _ => true
  | _ => false

/-- Object-shapedness used by the lookup guard at source line 54. -/
def isObjVal : JsVal → Bool
  | .obj _ => true
  | _ => false

end DbHeimdall

namespace DbHeimdall

/-- Core of `util.format`: consume the format characters, replacing each
`%s` by the next argument while arguments remain; returns the produced
characters and the unconsumed arguments. -/
def substFormatAux : List Char → List String → List Char × List String
  | [], args => ([], args)
  | '%' :: 's' :: rest, a :: args =>
      let r := substFormatAux rest args
      (a.toList ++ r.1, r.2)
  | c :: rest, args =>
      let r := substFormatAux rest args
      (c :: r.1, r.2)

/-- Model of `util.format` for string arguments: `%s` placeholders are
substituted left to right; surplus arguments are appended separated by
spaces; surplus placeholders stay literal.  (`%%` escapes and non-string
arguments do not occur in this script.) -/
def substFormat (f : String) (args : List String) : String :=
  let r := substFormatAux f.toList args
  ⟨r.1⟩ ++ String.join (r.2.map (fun a => " " ++ a))

/-- One observable action of the chat-command handler: a channel message
(`msg.send`), a threaded reply (`msg.reply`), a direct message to a named
room (`robot.send {room}`), the outbound vault HTTP request
(`robot.http(url).header('X-Vault-Token', tok).get()`), a brain write, or
an exception escaping the callback. -/
inductive Action where
  | send (text : String) : Action
  | reply (text : String) : Action
  | roomSend (room : String) (text : String) : Action
  | httpGet (url : String) (token : String) : Action
  | brainSet (key : String) (val : JsVal) : Action
  | threw (msg : String) : Action
deriving DecidableEq

/-- The `unknownError` closure (source lines 156-162): a generic reply, then
a status-code reply when a response with a truthy status is present, then
the error when present, then the body when truthy (non-empty). -/
def unknownErrorTrace (err : Option String) (status : Option Nat)
    (body : Option String) : List Action :=
  Action.reply "An error occurred talking to vault, please try again in a few moments" ::
  ((match status with
    | some sc => [Action.reply ("Status code: " ++ toString sc)]
    | none => []) ++
   (match err with
    | some e => [Action.reply ("Error: " ++ e)]
    | none => []) ++
   (match body with
    | some b => if b = "" then [] else [Action.reply ("Body: " ++ b)]
    | none => []))

/-- Render one flat key-value line of the credential listing: `username` and
`password` keys are bolded (source lines 201-205). -/
def renderEntry (k : String) (v : JsVal) : String :=
  if k = "username" ∨ k = "password" then
    "*" ++ k ++ "*: " ++ jsToString v
  else
    k ++ ": " ++ jsToString v

/-- `for (var k in s)` over a string enumerates its indices, each yielding a
one-character string value. -/
def flattenChars : Nat → List Char → List String
  | _, [] => []
  | i, c :: rest => (toString i ++ ": " ++ String.singleton c) :: flattenChars (i + 1) rest

mutual

/-- The recursive `parse` closure (source lines 194-209) applied to a value:
objects are walked field by field; a top-level string enumerates its
characters by index; other primitives have no enumerable properties. -/
def flattenVal : JsVal → List String
  | .obj fs => flattenFields fs
  | .str s => flattenChars 0 s.toList
  | _ => []

/-- Walk an object's fields in order. -/
def flattenFields : JsFields → List String
  | .nil => []
  | .cons k v rest => flattenEntry k v ++ flattenFields rest

/-- One field: values with `typeof === 'object'` (objects and `null`) are
recursed into (`null` contributes nothing); primitives are rendered. -/
def flattenEntry (k : String) : JsVal → List String
  | .obj fs => flattenFields fs
  | .null => []
  | v => [renderEntry k v]

end

end DbHeimdall

namespace DbHeimdall

/-- Whitespace skipped between JSON tokens. -/
def skipWs (cs : List Char) : List Char :=
  cs.dropWhile (fun c => c = ' ' ∨ c = '\n' ∨ c = '\t' ∨ c = '\r')

/-- JSON string literal body after the opening quote: plain characters up to
the closing quote, with single-character backslash escapes. -/
def parseStringAux : List Char → Option (List Char × List Char)
  | [] => none
  | '\x22' :: rest => some ([], rest)
  | '\x5c' :: c :: rest =>
      (parseStringAux rest).map (fun r =>
        ((if c = 'n' then '\n' else if c = 't' then '\t' else c) :: r.1, r.2))
  | c :: rest => (parseStringAux rest).map (fun r => (c :: r.1, r.2))

/-- Leading decimal digits and the remainder. -/
def takeDigits : List Char → List Char × List Char
  | [] => ([], [])
  | c :: rest =>
      if c.isDigit then
        let r := takeDigits rest
        (c :: r.1, r.2)
      else ([], c :: rest)

/-- A JSON integer numeral (this model of `JSON.parse` is restricted to
integer numbers, the only numbers this script meets; a fractional or
exponent part makes the parse fail). -/
def parseIntNumeral (cs : List Char) : Option (Int × List Char) :=
  match cs with
  | '-' :: rest =>
      match takeDigits rest with
      | ([], _) => none
      | (ds, rem) => (digitsToNat ds).map (fun n => (-(n : Int), rem))
  | _ =>
      match takeDigits cs with
      | ([], _) => none
      | (ds, rem) => (digitsToNat ds).map (fun n => ((n : Int), rem))

mutual

/-- Fuel-driven recursive-descent model of `JSON.parse` for the value
grammar: `null`, booleans, strings, integer numerals, and objects. -/
def parseJsonVal : Nat → List Char → Option (JsVal × List Char)
  | 0, _ => none
  | fuel + 1, cs =>
    match skipWs cs with
    | 'n' :: 'u' :: 'l' :: 'l' :: rest => some (.null, rest)
    | 't' :: 'r' :: 'u' :: 'e' :: rest => some (.bool true, rest)
    | 'f' :: 'a' :: 'l' :: 's' :: 'e' :: rest => some (.bool false, rest)
    | '\x22' :: rest => (parseStringAux rest).map (fun r => (.str ⟨r.1⟩, r.2))
    | '\x7b' :: rest => (parseObjFields fuel (skipWs rest)).map
        (fun r => (.obj r.1, r.2))
    | other =>
        match other with
        | [] => none
        | _ =>
          match parseIntNumeral other with
          | some (n, rem) => some (.num n, rem)
          | none => none

/-- Object members after the opening brace (or after a comma): either the
closing brace or a quoted key, a colon, a value, and optionally a comma and
further members. -/
def parseObjFields : Nat → List Char → Option (JsFields × List Char)
  | 0, _ => none
  | fuel + 1, cs =>
    match skipWs cs with
    | '\x7d' :: rest => some (.nil, rest)
    | '\x22' :: rest =>
      match parseStringAux rest with
      | none => none
      | some (kcs, r1) =>
        match skipWs r1 with
        | ':' :: r2 =>
          match parseJsonVal fuel r2 with
          | none => none
          | some (v, r3) =>
            match skipWs r3 with
            | ',' :: r4 => (parseObjFields fuel r4).map
                (fun r => (.cons ⟨kcs⟩ v r.1, r.2))
            | '\x7d' :: r4 => some (.cons ⟨kcs⟩ v .nil, r4)
            | _ => none
        | _ => none
    | _ => none

end

/-- `JSON.parse` on a whole string: a single value with only whitespace
after it; `none` models the thrown SyntaxError. -/
def jsonParse (s : String) : Option JsVal :=
  match parseJsonVal (s.length + 1) s.toList with
  | some (v, rest) => if skipWs rest = [] then some v else none
  | none => none

end DbHeimdall

namespace DbHeimdall

/-- The access-level switch (source lines 105-123): `read`/`ro` map to
`readonly`, `write`/`rw` to `readwrite`, `admin` to `admin`, after
lowercasing; anything else falls to the error default. -/
def normalizeLevel (s : String) : Option String :=
  let t := jsToLowerCase s
  if t = "read" ∨ t = "ro" then some "readonly"
  else if t = "write" ∨ t = "rw" then some "readwrite"
  else if t = "admin" then some "admin"
  else none

/-- The environment switch (source lines 127-141): `prod`/`production` map to
`db_production`, `test` to `db_test`, after lowercasing. -/
def normalizeEnv (s : String) : Option String :=
  let t := jsToLowerCase s
  if t = "prod" ∨ t = "production" then some "db_production"
  else if t = "test" then some "db_test"
  else none

/-- Message suffix appended to `sorry_dave` when the vault token is missing. -/
def tokenMissingSfx : String :=
  "\nI need your vault token in order to do this.\nYou should ask your beloved sysadmin ;)"

/-- Message suffix for an unknown access level (source line 119). -/
def unknownLevelSfx : String :=
  "\nUnknown access level *%s*.\nMust be read, ro, write, rw or admin"

/-- Message suffix for an unknown environment (source line 137). -/
def unknownEnvSfx : String :=
  "\nUnknown environment *%s*.\nMust be production, prod or test"

/-- Message suffix for vault statuses 401/400/404 (source line 170). -/
def unauthorizedSfx : String :=
  "\nYou\x27re not authorized to request *%s* access to *%s* database"

/-- Message suffix for vault status 503 (source line 177). -/
def sealedSfx : String :=
  "\nVault is sealed and cannot retreave any data from it"

/-- The reply sent when `JSON.parse` throws (source line 191). -/
def parseErrorMsg : String :=
  "An error occurred parsing the vault response"

/-- First line of the confirmation-link direct message (source line 226). -/
def browserMsg : String :=
  "Direct your browser here to enable access to DB from your current IP address\n"

/-- The reply added when the command came from a different room. -/
def privateChatMsg : String :=
  "I\x27ve sent the access credentials in a private chat"

/-- Configuration consumed by the command handler: `CONFIG.Strings.sorry_dave`
(a format string addressed to the user), `CONFIG.Urls.vault_base_url`, and
`CONFIG.Urls.base_url`. -/
structure ReqConfig where
  sorryDave : String
  vaultBaseUrl : String
  baseUrl : String

/-- The requesting chat user: name, and the vault token when
`user.Creds`/`user.Creds.vault_token` are defined. -/
structure Requester where
  name : String
  vaultToken : Option String

/-- Outcome of the vault HTTP call as seen by the callback `(err, res, body)`:
either a transport error (err non-null, response and body whatever the client
passed along), or a response with a status code and a body. -/
inductive HttpOutcome where
  | transportErr (e : String) (status : Option Nat) (body : Option String) : HttpOutcome
  | response (status : Nat) (body : Option String) : HttpOutcome

/-- The success path after a parseable body (source lines 184-232): send the
flattened credential listing to the user's room; `null` makes the later
`parsedBody.lease_duration` read throw; otherwise persist the lease record
`{vault_path, requested: now, lease_duration: parsedBody.lease_duration}`
under the fresh nonce's brain key and send the confirmation URL, plus a
reply when the command came from another room. -/
def successTrace (cfg : ReqConfig) (user : Requester) (vaultPath : String)
    (parsedBody : JsVal) (nonce : String) (now : Int) (differentRoom : Bool) :
    List Action :=
  Action.roomSend user.name (String.intercalate "\n" ("Here ya go:" :: flattenVal parsedBody)) ::
  match parsedBody with
  | .null => [Action.threw "TypeError"]
  | _ =>
    Action.brainSet (brainKey nonce)
      (.obj (.cons "vault_path" (.str vaultPath)
        (.cons "requested" (.num now)
          (.cons "lease_duration" (jsGetField parsedBody "lease_duration") .nil)))) ::
    Action.roomSend user.name (browserMsg ++ cfg.baseUrl ++ "heimdall/access/" ++ nonce) ::
    (if differentRoom then [Action.reply privateChatMsg] else [])

/-- The vault-response callback (source lines 154-233).  Branch order follows
the source: transport error, then statuses 401/400/404, then 503, then any
other status above 299, then the success path (parse the body, report a parse
failure by replying with the message and the raw body). -/
def vaultCallback (cfg : ReqConfig) (user : Requester) (level vaultPath : String)
    (outcome : HttpOutcome) (nonce : String) (now : Int) (differentRoom : Bool) :
    List Action :=
  match outcome with
  | .transportErr e status body => unknownErrorTrace (some e) status body
  | .response status body =>
    if status = 401 ∨ status = 400 ∨ status = 404 then
      [Action.send (substFormat (cfg.sorryDave ++ unauthorizedSfx)
        [user.name, level, vaultPath])]
    else if status = 503 then
      [Action.send (substFormat (cfg.sorryDave ++ sealedSfx) [user.name])]
    else if 299 < status then
      unknownErrorTrace none (some status) body
    else
      match body with
      | none => [Action.reply parseErrorMsg, Action.reply "undefined"]
      | some bs =>
        match jsonParse bs with
        | none => [Action.reply parseErrorMsg, Action.reply bs]
        | some v => successTrace cfg user vaultPath v nonce now differentRoom

/-- The whole chat-command handler (source lines 93-234) as the list of
actions it performs.  `nonce` stands for the sha256-of-uuid nonce minted on
the success path; `now` is the clock; `differentRoom` is whether
`msg.envelope.room` differs from the user's own room.  Checks run in source
order: vault token presence, access level, environment; then the vault URL
is built as `util.format('%s/v1/%s/creds/%s', base, vault_path, level)` and
the HTTP GET is issued with the user's token.  Note the unknown-level
message interpolates the (still unassigned) `level` variable, i.e. JS
`undefined`, not the rejected token. -/
def requestAccess (cfg : ReqConfig) (user : Requester) (levelTok envTok : String)
    (outcome : HttpOutcome) (nonce : String) (now : Int) (differentRoom : Bool) :
    List Action :=
  match user.vaultToken with
  | none => [Action.send (substFormat (cfg.sorryDave ++ tokenMissingSfx) [user.name])]
  | some tok =>
    match normalizeLevel levelTok with
    | none => [Action.send (substFormat (cfg.sorryDave ++ unknownLevelSfx)
        [user.name, "undefined"])]
    | some level =>
      match normalizeEnv envTok with
      | none => [Action.send (substFormat (cfg.sorryDave ++ unknownEnvSfx)
          [user.name, envTok])]
      | some vaultPath =>
        Action.httpGet (substFormat "%s/v1/%s/creds/%s" [cfg.vaultBaseUrl, vaultPath, level]) tok ::
        vaultCallback cfg user level vaultPath outcome nonce now differentRoom

/-- Whether an action is a channel message (`msg.send`). -/
def Action.isSend : Action → Bool
  | .send _ => true
  | _ => false

/-- Whether an action is a reply whose text begins with the letter E — among
the texts the vault callback can reply, exactly the `'Error: ' + err` line of
`unknownError` qualifies. -/
def replyHeadE : Action → Bool
  | .reply s => s.toList.headD 'x' == 'E'
  | _ => false

/-- Whether an action is an outbound vault HTTP request. -/
def Action.isHttpGet : Action → Bool
  | .httpGet _ _ => true
  | _ => false

/-- Whether an action is a brain write. -/
def Action.isBrainSet : Action → Bool
  | .brainSet _ _ => true
  | _ => false

end DbHeimdall


namespace DbHeimdall

/-! ### Store lemmas -/

/-- Looking a key up after `removeKey`: the removed key is gone, others are
untouched. -/
theorem brainLookup_removeKey (st : Store) (k key : String) :
    brainLookup (removeKey st k) key = if key = k then none else brainLookup st key := by
  induction st with
  | nil => simp [brainLookup, removeKey]
  | cons p rest ih =>
    obtain ⟨pk, pv⟩ := p
    by_cases h1 : pk = k <;> by_cases h2 : key = pk <;> by_cases h3 : key = k <;>
      simp_all [brainLookup, removeKey]

/-- `brain.get` after `brain.remove`: the removed key reads as `null`. -/
theorem brainGet_removeKey (st : Store) (k key : String) :
    brainGet (removeKey st k) key = if key = k then JsVal.null else brainGet st key := by
  unfold brainGet
  rw [brainLookup_removeKey]
  by_cases h : key = k
  · rw [if_pos h, if_pos h]
  · rw [if_neg h, if_neg h]

/-! ### Confirmation-handler structure lemmas -/

/-- A genuine visit carries a non-crawler user agent. -/
theorem genuineVisit_ua (req : ConfirmReq) (ua : String)
    (hU : req.userAgent = some ua) (hgen : genuineVisit req = true) :
    isSlackbotUA ua = false := by
  unfold genuineVisit at hgen
  simp only [hU] at hgen
  simpa using hgen

/-- A genuine visit proceeds past the crawler check to the brain lookup. -/
theorem genuine_confirmVisit (st : Store) (req : ConfirmReq) (now : Int)
    (aclErr : Option String) (hgen : genuineVisit req = true) :
    confirmVisit st req now aclErr = confirmLookup st req now aclErr := by
  unfold genuineVisit at hgen
  cases hU : req.userAgent with
  | none => simp only [hU] at hgen; cases hgen
  | some ua =>
    simp only [hU] at hgen
    have hb : isSlackbotUA ua = false := by simpa using hgen
    simp [confirmVisit, hU, hb]

/-- Every path through the object branch removes the nonce's brain key. -/
theorem confirmWithRecord_store (st : Store) (req : ConfirmReq) (now : Int)
    (aclErr : Option String) (fields : JsFields) :
    (confirmWithRecord st req now aclErr fields).store = removeKey st (brainKey req.nonce) := by
  unfold confirmWithRecord
  by_cases ht : jsLtZero (leaseTtl fields now)
  · simp [ht]
  · simp only [ht, Bool.false_eq_true, if_false]
    cases aclErr <;> rfl

/-- A visit either leaves the store alone or removes the nonce's key. -/
theorem confirmVisit_store_shape (st : Store) (req : ConfirmReq) (now : Int)
    (aclErr : Option String) :
    (confirmVisit st req now aclErr).store = st ∨
    (confirmVisit st req now aclErr).store = removeKey st (brainKey req.nonce) := by
  unfold confirmVisit
  cases hU : req.userAgent with
  | none => exact Or.inl rfl
  | some ua =>
    by_cases hb : isSlackbotUA ua
    · simp [hb]
    · simp only [hb, Bool.false_eq_true, if_false]
      unfold confirmLookup
      cases hg : brainGet st (brainKey req.nonce) with
      | obj fields => exact Or.inr (confirmWithRecord_store st req now aclErr fields)
      | undefined => exact Or.inl rfl
      | null => exact Or.inl rfl
      | str s => exact Or.inl rfl
      | num n => exact Or.inl rfl
      | bool b => exact Or.inl rfl

/-- A key whose value is not object-shaped stays that way across any visit
(visits never write, they only remove). -/
theorem notObj_preserved (st : Store) (req : ConfirmReq) (now : Int)
    (aclErr : Option String) (key : String)
    (h : isObjVal (brainGet st key) = false) :
    isObjVal (brainGet (confirmVisit st req now aclErr).store key) = false := by
  rcases confirmVisit_store_shape st req now aclErr with hs | hs <;> rw [hs]
  · exact h
  · rw [brainGet_removeKey]
    by_cases hk : key = brainKey req.nonce
    · rw [if_pos hk]; rfl
    · rw [if_neg hk]; exact h

/-- Not-object-shapedness of a key is preserved by any sequence of visits. -/
theorem runVisits_notObj_preserved (vs : List Visit) (st : Store) (key : String)
    (h : isObjVal (brainGet st key) = false) :
    isObjVal (brainGet (runVisits st vs) key) = false := by
  induction vs generalizing st with
  | nil => exact h
  | cons v rest ih =>
    exact ih _ (notObj_preserved st v.req v.now v.aclErr key h)

/-- After any terminal outcome, the nonce's key no longer holds an
object-shaped record. -/
theorem terminal_clears (st : Store) (req : ConfirmReq) (now : Int) (aclErr : Option String)
    (hterm : (confirmVisit st req now aclErr).response.isTerminal = true) :
    isObjVal (brainGet (confirmVisit st req now aclErr).store (brainKey req.nonce)) = false := by
  unfold confirmVisit at hterm ⊢
  cases hU : req.userAgent with
  | none =>
    simp only [hU] at hterm
    simp [Response.isTerminal] at hterm
  | some ua =>
    simp only [hU] at hterm ⊢
    by_cases hb : isSlackbotUA ua
    · simp only [hb, if_true] at hterm
      simp [Response.isTerminal] at hterm
    · simp only [hb, Bool.false_eq_true, if_false] at hterm ⊢
      unfold confirmLookup at hterm ⊢
      cases hg : brainGet st (brainKey req.nonce) with
      | obj fields =>
        simp only [hg]
        rw [confirmWithRecord_store, brainGet_removeKey, if_pos rfl]; rfl
      | undefined => simp only [hg]; rfl
      | null => simp only [hg]; rfl
      | str s => simp only [hg]; rfl
      | num n => simp only [hg]; rfl
      | bool b => simp only [hg]; rfl

/-- A genuine visit on a key without an object-shaped record renders the
not-found page and issues no ACL call. -/
theorem notFound_when_cleared (st : Store) (req : ConfirmReq) (now : Int)
    (aclErr : Option String)
    (hgen : genuineVisit req = true)
    (h : isObjVal (brainGet st (brainKey req.nonce)) = false) :
    (confirmVisit st req now aclErr).response = Response.renderNotFound ∧
    (confirmVisit st req now aclErr).aclCalls = [] := by
  rw [genuine_confirmVisit st req now aclErr hgen]
  unfold confirmLookup
  cases hg : brainGet st (brainKey req.nonce) with
  | obj fields => rw [hg] at h; cases h
  | undefined => simp
  | null => simp
  | str s => simp
  | num n => simp
  | bool b => simp

/-! ### Claim C1 -/

/-- C1: after a confirmation visit reaches any terminal outcome (Granted,
Failed, or the shared Expired/NotFound page), every later genuine visit with
the same nonce — with arbitrary other visits in between — yields the
NotFound response and triggers no ACL authorization call. -/
theorem nonce_never_reused
    (st : Store) (v1 : Visit) (vs : List Visit) (v2 : Visit)
    (hterm : (applyVisit st v1).response.isTerminal = true)
    (hgen : genuineVisit v2.req = true)
    (hsame : v2.req.nonce = v1.req.nonce) :
    (applyVisit (runVisits (applyVisit st v1).store vs) v2).response = Response.renderNotFound ∧
    (applyVisit (runVisits (applyVisit st v1).store vs) v2).aclCalls = [] := by
  have h1 : isObjVal (brainGet (applyVisit st v1).store (brainKey v1.req.nonce)) = false :=
    terminal_clears st v1.req v1.now v1.aclErr hterm
  have h2 := runVisits_notObj_preserved vs (applyVisit st v1).store (brainKey v1.req.nonce) h1
  have h3 : isObjVal (brainGet (runVisits (applyVisit st v1).store vs)
      (brainKey v2.req.nonce)) = false := by
    rw [hsame]; exact h2
  exact notFound_when_cleared _ v2.req v2.now v2.aclErr hgen h3

/-- Concrete instance of `nonce_never_reused`: a granted visit on a live
lease, then a second visit with the same nonce. -/
theorem nonce_never_reused_witness :
    ((applyVisit [("heimdall_access_n1",
        JsVal.obj (.cons "vault_path" (.str "db_test") (.cons "requested" (.num 0)
          (.cons "lease_duration" (.num 600) .nil))))]
        ⟨⟨"n1", some "Mozilla/5.0", none, none, "10.0.0.5"⟩, 1000, none⟩).response.isTerminal = true) ∧
    ((applyVisit (runVisits (applyVisit [("heimdall_access_n1",
        JsVal.obj (.cons "vault_path" (.str "db_test") (.cons "requested" (.num 0)
          (.cons "lease_duration" (.num 600) .nil))))]
        ⟨⟨"n1", some "Mozilla/5.0", none, none, "10.0.0.5"⟩, 1000, none⟩).store [])
        ⟨⟨"n1", some "Mozilla/5.0", none, none, "10.0.0.6"⟩, 2000, none⟩).response =
          Response.renderNotFound ∧
     (applyVisit (runVisits (applyVisit [("heimdall_access_n1",
        JsVal.obj (.cons "vault_path" (.str "db_test") (.cons "requested" (.num 0)
          (.cons "lease_duration" (.num 600) .nil))))]
        ⟨⟨"n1", some "Mozilla/5.0", none, none, "10.0.0.5"⟩, 1000, none⟩).store [])
        ⟨⟨"n1", some "Mozilla/5.0", none, none, "10.0.0.6"⟩, 2000, none⟩).aclCalls = []) :=
  ⟨by decide, nonce_never_reused _ _ _ _ (by decide) (by decide) rfl⟩

end DbHeimdall

namespace DbHeimdall

/-! ### Claim C2 -/

/-- C2 as frozen is false: with a non-object value (here a string) stored
under the nonce key, the visit reaches a terminal outcome (the not-found
page) yet returns with the stored value still present — the early `return`
skips `brain.remove`. -/
theorem terminal_cleanup_counterexample :
    ((confirmVisit [("heimdall_access_n2", JsVal.str "stale")]
        ⟨"n2", some "curl/7.0", none, none, "1.2.3.4"⟩ 0 none).response.isTerminal = true) ∧
    (brainGet (confirmVisit [("heimdall_access_n2", JsVal.str "stale")]
        ⟨"n2", some "curl/7.0", none, none, "1.2.3.4"⟩ 0 none).store "heimdall_access_n2"
      = JsVal.str "stale") := by decide

/-- C2 amended: on a genuine confirmation visit, when the store holds an
object-shaped record under the nonce key, every terminal path (success, ACL
failure, expiry) removes that key; when the stored value is missing or not
object-shaped, the not-found path returns early and leaves the store
entirely untouched — such a value is not removed. -/
theorem record_removal
    (st : Store) (req : ConfirmReq) (now : Int) (aclErr : Option String)
    (hgen : genuineVisit req = true) :
    (isObjVal (brainGet st (brainKey req.nonce)) = true →
      brainGet (confirmVisit st req now aclErr).store (brainKey req.nonce) = JsVal.null) ∧
    (isObjVal (brainGet st (brainKey req.nonce)) = false →
      (confirmVisit st req now aclErr).store = st) := by
  rw [genuine_confirmVisit st req now aclErr hgen]
  unfold confirmLookup
  cases hg : brainGet st (brainKey req.nonce) with
  | obj fields =>
    constructor
    · intro _
      rw [confirmWithRecord_store, brainGet_removeKey, if_pos rfl]
    · intro h; simp [isObjVal] at h
  | undefined => exact ⟨fun h => by simp [isObjVal] at h, fun _ => rfl⟩
  | null => exact ⟨fun h => by simp [isObjVal] at h, fun _ => rfl⟩
  | str s => exact ⟨fun h => by simp [isObjVal] at h, fun _ => rfl⟩
  | num n => exact ⟨fun h => by simp [isObjVal] at h, fun _ => rfl⟩
  | bool b => exact ⟨fun h => by simp [isObjVal] at h, fun _ => rfl⟩

/-- Concrete instance of `record_removal`: an object-shaped record is gone
after the visit. -/
theorem record_removal_witness :
    genuineVisit ⟨"n1", some "Mozilla/5.0", none, none, "10.0.0.5"⟩ = true ∧
    brainGet (confirmVisit [("heimdall_access_n1",
        JsVal.obj (.cons "vault_path" (.str "db_test") (.cons "requested" (.num 0)
          (.cons "lease_duration" (.num 600) .nil))))]
        ⟨"n1", some "Mozilla/5.0", none, none, "10.0.0.5"⟩ 1000 none).store
      "heimdall_access_n1" = JsVal.null :=
  ⟨by decide,
   (record_removal _ ⟨"n1", some "Mozilla/5.0", none, none, "10.0.0.5"⟩ 1000 none
      (by decide)).1 (by decide)⟩

/-! ### Claim C6 -/

/-- C6: a confirmation request whose user-agent matches the crawler pattern
is answered with an immediate neutral 200; the store is returned untouched
(the lease record under the nonce is neither read nor deleted) and no ACL
call is made. -/
theorem crawler_short_circuit
    (st : Store) (req : ConfirmReq) (now : Int) (aclErr : Option String) (ua : String)
    (hU : req.userAgent = some ua) (hbot : isSlackbotUA ua = true) :
    confirmVisit st req now aclErr = ⟨.send200, st, []⟩ := by
  unfold confirmVisit
  simp only [hU, hbot, if_true]

/-- Concrete instance of `crawler_short_circuit`: a Slackbot link-preview
visit on a store holding a live record. -/
theorem crawler_short_circuit_witness :
    isSlackbotUA "Slackbot-LinkExpanding 1.0 (+https://api.slack.com/robots)" = true ∧
    confirmVisit [("heimdall_access_n1",
        JsVal.obj (.cons "vault_path" (.str "db_test") (.cons "requested" (.num 0)
          (.cons "lease_duration" (.num 600) .nil))))]
      ⟨"n1", some "Slackbot-LinkExpanding 1.0 (+https://api.slack.com/robots)", none, none,
        "10.0.0.5"⟩ 1000 none =
      ⟨.send200, [("heimdall_access_n1",
        JsVal.obj (.cons "vault_path" (.str "db_test") (.cons "requested" (.num 0)
          (.cons "lease_duration" (.num 600) .nil))))], []⟩ :=
  ⟨by decide,
   crawler_short_circuit _ _ 1000 none _ rfl (by decide)⟩

/-! ### Claim C10 -/

/-- C10 as frozen is false: a confirmation request carrying no user-agent
header makes the handler throw a TypeError
(`req.headers['user-agent'].match` on `undefined`). -/
theorem missing_user_agent_counterexample :
    (confirmVisit [] ⟨"n9", none, none, none, "1.2.3.4"⟩ 0 none).response
      = Response.threw "TypeError" := rfl

/-- C10 amended: every confirmation request that does carry a user-agent
header completes without throwing, whatever the store, clock, and ACL
outcome; only the missing-header case throws. -/
theorem confirm_no_throw
    (st : Store) (req : ConfirmReq) (now : Int) (aclErr : Option String) (ua : String)
    (hU : req.userAgent = some ua) :
    ∀ m, (confirmVisit st req now aclErr).response ≠ Response.threw m := by
  intro m
  unfold confirmVisit
  simp only [hU]
  by_cases hb : isSlackbotUA ua
  · simp [hb]
  · simp only [hb, Bool.false_eq_true, if_false]
    unfold confirmLookup
    cases hg : brainGet st (brainKey req.nonce) with
    | obj fields =>
      unfold confirmWithRecord
      by_cases ht : jsLtZero (leaseTtl fields now)
      · simp [ht]
      · simp only [ht, Bool.false_eq_true, if_false]
        cases aclErr <;> simp
    | undefined => simp
    | null => simp
    | str s => simp
    | num n => simp
    | bool b => simp

/-- Concrete instance of `confirm_no_throw`. -/
theorem confirm_no_throw_witness :
    (confirmVisit [] ⟨"n1", some "curl/7.0", none, none, "1.2.3.4"⟩ 0 none).response ≠
      Response.threw "TypeError" :=
  confirm_no_throw [] ⟨"n1", some "curl/7.0", none, none, "1.2.3.4"⟩ 0 none "curl/7.0" rfl
    "TypeError"

end DbHeimdall

namespace DbHeimdall

/-! ### Claim C3 -/

/-- TTL of a well-formed lease record:
`lease_duration * 1000 - (now - requested)` milliseconds. -/
theorem leaseTtl_record (path : String) (t0 L now : Int) :
    leaseTtl (.cons "vault_path" (.str path) (.cons "requested" (.num t0)
      (.cons "lease_duration" (.num L) .nil))) now
      = JsNum.int (L * 1000 - (now - t0)) := by
  simp +decide [leaseTtl, JsFields.getF, jsToNumber, jsMul, jsSub]

/-- The `vault_path` field of a well-formed lease record. -/
theorem vaultPath_record (path : String) (t0 L : Int) :
    JsFields.getF (.cons "vault_path" (.str path) (.cons "requested" (.num t0)
      (.cons "lease_duration" (.num L) .nil))) "vault_path" = JsVal.str path := by
  simp [JsFields.getF]

/-- C3 as frozen is false at the boundary `d = L`: with a 600-second lease
requested at time 0, a visit at exactly 600000 ms computes `ttl = 0`, which
is not `< 0`, so the handler proceeds to the ACL call instead of taking the
Expired path. -/
theorem expiry_boundary_counterexample :
    ((confirmVisit [("heimdall_access_n3", JsVal.obj (.cons "vault_path" (.str "db_test")
        (.cons "requested" (.num 0) (.cons "lease_duration" (.num 600) .nil))))]
      ⟨"n3", some "curl/7.0", none, none, "10.0.0.5"⟩ 600000 none).aclCalls
      = [⟨some "db-uwhisp-test", "10.0.0.5/32", JsNum.int 0⟩]) ∧
    ((confirmVisit [("heimdall_access_n3", JsVal.obj (.cons "vault_path" (.str "db_test")
        (.cons "requested" (.num 0) (.cons "lease_duration" (.num 600) .nil))))]
      ⟨"n3", some "curl/7.0", none, none, "10.0.0.5"⟩ 600000 none).response
      ≠ Response.renderNotFound) := by decide

/-- C3 amended: for a lease record with `lease_duration = L` seconds created
at `t0`, a genuine visit at time `now` computes
`ttl = L*1000 - (now - t0)` ms; whenever `now - t0 ≤ L*1000` (i.e. `ttl ≥ 0`,
including the boundary `ttl = 0`) the handler calls the ACL backend exactly
once with that ttl, and whenever `now - t0 > L*1000` (`ttl < 0`) it takes
the Expired path: the not-found-equivalent page and no ACL call. -/
theorem ttl_computation
    (st : Store) (req : ConfirmReq) (aclErr : Option String)
    (path : String) (t0 L now : Int)
    (hgen : genuineVisit req = true)
    (hrec : brainGet st (brainKey req.nonce) =
      JsVal.obj (.cons "vault_path" (.str path) (.cons "requested" (.num t0)
        (.cons "lease_duration" (.num L) .nil)))) :
    (now - t0 ≤ L * 1000 →
      (confirmVisit st req now aclErr).aclCalls =
        [⟨SecGroupForVaultPath path, clientIp req, JsNum.int (L * 1000 - (now - t0))⟩]) ∧
    (L * 1000 < now - t0 →
      (confirmVisit st req now aclErr).response = Response.renderNotFound ∧
      (confirmVisit st req now aclErr).aclCalls = []) := by
  rw [genuine_confirmVisit st req now aclErr hgen]
  unfold confirmLookup
  simp only [hrec]
  unfold confirmWithRecord
  rw [leaseTtl_record]
  constructor
  · intro h
    have hlt : jsLtZero (JsNum.int (L * 1000 - (now - t0))) = false := by
      simp [jsLtZero]; omega
    simp only [hlt, Bool.false_eq_true, if_false, vaultPath_record]
    cases aclErr <;> simp [jsToString]
  · intro h
    have hlt : jsLtZero (JsNum.int (L * 1000 - (now - t0))) = true := by
      simp [jsLtZero]; omega
    simp only [hlt, if_true]
    simp

/-- Concrete instance of `ttl_computation`: a visit 100 seconds into a
600-second lease authorizes with ttl 500000 ms. -/
theorem ttl_computation_witness :
    genuineVisit ⟨"n1", some "Mozilla/5.0", none, none, "10.0.0.5"⟩ = true ∧
    (confirmVisit [("heimdall_access_n1", JsVal.obj (.cons "vault_path" (.str "db_test")
        (.cons "requested" (.num 0) (.cons "lease_duration" (.num 600) .nil))))]
      ⟨"n1", some "Mozilla/5.0", none, none, "10.0.0.5"⟩ 100000 none).aclCalls =
      [⟨SecGroupForVaultPath "db_test", clientIp ⟨"n1", some "Mozilla/5.0", none, none, "10.0.0.5"⟩,
        JsNum.int (600 * 1000 - (100000 - 0))⟩] :=
  ⟨by decide,
   (ttl_computation _ ⟨"n1", some "Mozilla/5.0", none, none, "10.0.0.5"⟩ none "db_test" 0 600
      100000 (by decide) (by decide)).1 (by decide)⟩

/-! ### Claim C5 -/

/-- Every ACL call a visit makes carries the resolved client address. -/
theorem aclCalls_cidr (st : Store) (req : ConfirmReq) (now : Int) (aclErr : Option String) :
    ∀ p ∈ (confirmVisit st req now aclErr).aclCalls, p.CIDRIP = clientIp req := by
  intro p hp
  unfold confirmVisit at hp
  cases hU : req.userAgent with
  | none => simp only [hU] at hp; simp at hp
  | some ua =>
    simp only [hU] at hp
    by_cases hb : isSlackbotUA ua
    · simp [hb] at hp
    · simp only [hb, Bool.false_eq_true, if_false] at hp
      unfold confirmLookup at hp
      cases hg : brainGet st (brainKey req.nonce) with
      | obj fields =>
        simp only [hg] at hp
        unfold confirmWithRecord at hp
        by_cases ht : jsLtZero (leaseTtl fields now)
        · simp [ht] at hp
        · simp only [ht, Bool.false_eq_true, if_false] at hp
          cases aclErr with
          | some e => simp at hp; rw [hp]
          | none => simp at hp; rw [hp]
      | undefined => simp only [hg] at hp; simp at hp
      | null => simp only [hg] at hp; simp at hp
      | str s => simp only [hg] at hp; simp at hp
      | num n => simp only [hg] at hp; simp at hp
      | bool b => simp only [hg] at hp; simp at hp

/-- C5: the address used by the confirmation handler follows the precedence
real-IP header (spaces stripped), else first comma-separated hop of the
forwarded-for header (spaces stripped), else the transport peer address, and
always carries the `/32` single-host suffix; every ACL call the handler
issues uses exactly this address. -/
theorem ip_resolution
    (req : ConfirmReq) (st : Store) (now : Int) (aclErr : Option String) :
    (∀ v, req.xRealIp = some v → clientIp req = stripSpaces v ++ "/32") ∧
    (req.xRealIp = none → ∀ w, req.xForwardedFor = some w →
      clientIp req = stripSpaces (firstCommaEntry w) ++ "/32") ∧
    (req.xRealIp = none → req.xForwardedFor = none →
      clientIp req = req.remoteAddress ++ "/32") ∧
    (∀ p ∈ (confirmVisit st req now aclErr).aclCalls, p.CIDRIP = clientIp req) := by
  refine ⟨?_, ?_, ?_, aclCalls_cidr st req now aclErr⟩
  · intro v hv; unfold clientIp resolveIp; simp only [hv]
  · intro h0 w hw; unfold clientIp resolveIp; simp only [h0, hw]
  · intro h0 h1; unfold clientIp resolveIp; simp only [h0, h1]

/-- Concrete instance of `ip_resolution`: both proxy headers present — the
real-IP header wins, spaces are stripped, and `/32` is appended. -/
theorem ip_resolution_witness :
    clientIp ⟨"n1", some "Mozilla/5.0", some " 203.0.113.9 ", some "9.9.9.9, 8.8.8.8",
      "10.0.0.5"⟩ = stripSpaces " 203.0.113.9 " ++ "/32" :=
  (ip_resolution ⟨"n1", some "Mozilla/5.0", some " 203.0.113.9 ", some "9.9.9.9, 8.8.8.8",
      "10.0.0.5"⟩ [] 0 none).1 " 203.0.113.9 " rfl

end DbHeimdall

namespace DbHeimdall

/-! ### Claim C7 -/

/-- C7: case-insensitive synonym normalization — `read`/`ro` map to
`readonly`, `write`/`rw` to `readwrite`, `admin` to `admin`, `prod`/
`production` to the production scope path, `test` to the test scope path,
and nothing else is accepted; on any rejected level or environment the
handler sends the InvalidRequest message and neither issues the vault
HTTP request nor writes the store. -/
theorem synonym_normalization :
    (∀ s : String, normalizeLevel s = some "readonly" ↔
      (jsToLowerCase s = "read" ∨ jsToLowerCase s = "ro")) ∧
    (∀ s : String, normalizeLevel s = some "readwrite" ↔
      (jsToLowerCase s = "write" ∨ jsToLowerCase s = "rw")) ∧
    (∀ s : String, normalizeLevel s = some "admin" ↔ jsToLowerCase s = "admin") ∧
    (∀ s l, normalizeLevel s = some l →
      l = "readonly" ∨ l = "readwrite" ∨ l = "admin") ∧
    (∀ s : String, normalizeEnv s = some "db_production" ↔
      (jsToLowerCase s = "prod" ∨ jsToLowerCase s = "production")) ∧
    (∀ s : String, normalizeEnv s = some "db_test" ↔ jsToLowerCase s = "test") ∧
    (∀ s p, normalizeEnv s = some p → p = "db_production" ∨ p = "db_test") ∧
    (∀ (cfg : ReqConfig) (user : Requester) (tok levelTok envTok : String)
        (outcome : HttpOutcome) (nonce : String) (now : Int) (dr : Bool),
      user.vaultToken = some tok → normalizeLevel levelTok = none →
      requestAccess cfg user levelTok envTok outcome nonce now dr =
        [Action.send (substFormat (cfg.sorryDave ++ unknownLevelSfx) [user.name, "undefined"])] ∧
      (requestAccess cfg user levelTok envTok outcome nonce now dr).any Action.isHttpGet = false ∧
      (requestAccess cfg user levelTok envTok outcome nonce now dr).any Action.isBrainSet = false) ∧
    (∀ (cfg : ReqConfig) (user : Requester) (tok levelTok envTok level : String)
        (outcome : HttpOutcome) (nonce : String) (now : Int) (dr : Bool),
      user.vaultToken = some tok → normalizeLevel levelTok = some level →
      normalizeEnv envTok = none →
      requestAccess cfg user levelTok envTok outcome nonce now dr =
        [Action.send (substFormat (cfg.sorryDave ++ unknownEnvSfx) [user.name, envTok])] ∧
      (requestAccess cfg user levelTok envTok outcome nonce now dr).any Action.isHttpGet = false ∧
      (requestAccess cfg user levelTok envTok outcome nonce now dr).any Action.isBrainSet = false) := by
  refine ⟨?_, ?_, ?_, ?_, ?_, ?_, ?_, ?_, ?_⟩
  · intro s
    constructor
    · intro h
      simp only [normalizeLevel] at h
      split_ifs at h with h1 h2 h3
      · exact h1
      · exact absurd h (by decide)
      · exact absurd h (by decide)
    · intro h
      rcases h with h | h <;> simp +decide [normalizeLevel, h]
  · intro s
    constructor
    · intro h
      simp only [normalizeLevel] at h
      split_ifs at h with h1 h2 h3
      · exact absurd h (by decide)
      · exact h2
      · exact absurd h (by decide)
    · intro h
      have h1 : ¬(jsToLowerCase s = "read" ∨ jsToLowerCase s = "ro") := by
        rcases h with h | h <;> simp +decide [h]
      rcases h with h | h <;> simp +decide [normalizeLevel, h]
  · intro s
    constructor
    · intro h
      simp only [normalizeLevel] at h
      split_ifs at h with h1 h2 h3
      · exact absurd h (by decide)
      · exact absurd h (by decide)
      · exact h3
    · intro h
      simp +decide [normalizeLevel, h]
  · intro s l h
    simp only [normalizeLevel] at h
    split_ifs at h with h1 h2 h3
    · exact Or.inl (Option.some.inj h).symm
    · exact Or.inr (Or.inl (Option.some.inj h).symm)
    · exact Or.inr (Or.inr (Option.some.inj h).symm)
  · intro s
    constructor
    · intro h
      simp only [normalizeEnv] at h
      split_ifs at h with h1 h2
      · exact h1
      · exact absurd h (by decide)
    · intro h
      rcases h with h | h <;> simp +decide [normalizeEnv, h]
  · intro s
    constructor
    · intro h
      simp only [normalizeEnv] at h
      split_ifs at h with h1 h2
      · exact absurd h (by decide)
      · exact h2
    · intro h
      simp +decide [normalizeEnv, h]
  · intro s p h
    simp only [normalizeEnv] at h
    split_ifs at h with h1 h2
    · exact Or.inl (Option.some.inj h).symm
    · exact Or.inr (Option.some.inj h).symm
  · intro cfg user tok levelTok envTok outcome nonce now dr htok hlev
    have ht : requestAccess cfg user levelTok envTok outcome nonce now dr =
        [Action.send (substFormat (cfg.sorryDave ++ unknownLevelSfx) [user.name, "undefined"])] := by
      unfold requestAccess
      simp only [htok, hlev]
    refine ⟨ht, ?_, ?_⟩ <;> rw [ht] <;> simp [Action.isHttpGet, Action.isBrainSet]
  · intro cfg user tok levelTok envTok level outcome nonce now dr htok hlev henv
    have ht : requestAccess cfg user levelTok envTok outcome nonce now dr =
        [Action.send (substFormat (cfg.sorryDave ++ unknownEnvSfx) [user.name, envTok])] := by
      unfold requestAccess
      simp only [htok, hlev, henv]
    refine ⟨ht, ?_, ?_⟩ <;> rw [ht] <;> simp [Action.isHttpGet, Action.isBrainSet]

/-- Concrete instance of `synonym_normalization`: `RO` normalizes to
`readonly`; a bogus level elicits exactly the unknown-level InvalidRequest
reply, and a bogus environment exactly the unknown-environment reply (with
no vault request and no store write in either case). -/
theorem synonym_normalization_witness :
    normalizeLevel "RO" = some "readonly" ∧
    (requestAccess ⟨"Sorry %s.", "http://vault", "http://bot/"⟩ ⟨"dave", some "tok"⟩
        "bogus" "test" (.response 200 (some "\x7b\x7d")) "n0" 5 false =
      [Action.send (substFormat ("Sorry %s." ++ unknownLevelSfx) ["dave", "undefined"])]) ∧
    (requestAccess ⟨"Sorry %s.", "http://vault", "http://bot/"⟩ ⟨"dave", some "tok"⟩
        "bogus" "test" (.response 200 (some "\x7b\x7d")) "n0" 5 false).any
      Action.isHttpGet = false ∧
    (requestAccess ⟨"Sorry %s.", "http://vault", "http://bot/"⟩ ⟨"dave", some "tok"⟩
        "read" "staging" (.response 200 (some "\x7b\x7d")) "n0" 5 false =
      [Action.send (substFormat ("Sorry %s." ++ unknownEnvSfx) ["dave", "staging"])]) :=
  ⟨((synonym_normalization).1 "RO").2 (by decide),
   ((synonym_normalization).2.2.2.2.2.2.2.1 ⟨"Sorry %s.", "http://vault", "http://bot/"⟩
      ⟨"dave", some "tok"⟩ "tok" "bogus" "test" (.response 200 (some "\x7b\x7d")) "n0" 5 false
      rfl (by decide)).1,
   ((synonym_normalization).2.2.2.2.2.2.2.1 ⟨"Sorry %s.", "http://vault", "http://bot/"⟩
      ⟨"dave", some "tok"⟩ "tok" "bogus" "test" (.response 200 (some "\x7b\x7d")) "n0" 5 false
      rfl (by decide)).2.1,
   ((synonym_normalization).2.2.2.2.2.2.2.2 ⟨"Sorry %s.", "http://vault", "http://bot/"⟩
      ⟨"dave", some "tok"⟩ "tok" "read" "staging" "readonly" (.response 200 (some "\x7b\x7d"))
      "n0" 5 false rfl (by decide) (by decide)).1⟩

/-! ### Claim C9 -/

/-- C9: the unknown-access-level branch of the chat handler.  The rejected
token is never interpolated: the message is built with the still-unassigned
`level` variable, so it always reads `Unknown access level *undefined*`,
identical for every rejected token — the accepted values are listed, but
the claimed verbatim echo of the input does not happen. -/
theorem invalid_level_report
    (cfg : ReqConfig) (user : Requester) (tok levelTok envTok : String)
    (outcome : HttpOutcome) (nonce : String) (now : Int) (dr : Bool)
    (htok : user.vaultToken = some tok)
    (hlev : normalizeLevel levelTok = none) :
    requestAccess cfg user levelTok envTok outcome nonce now dr =
      [Action.send (substFormat (cfg.sorryDave ++ unknownLevelSfx) [user.name, "undefined"])] := by
  unfold requestAccess
  simp only [htok, hlev]

/-- Concrete instance of `invalid_level_report`: rejected token `bogus`; the
resulting message names `*undefined*`, not `*bogus*`. -/
theorem invalid_level_report_witness :
    normalizeLevel "bogus" = none ∧
    requestAccess ⟨"I am sorry %s, I cannot do that.", "http://vault", "http://bot/"⟩
        ⟨"dave", some "tok"⟩ "bogus" "test" (.response 200 (some "\x7b\x7d")) "n0" 5 false =
      [Action.send (substFormat ("I am sorry %s, I cannot do that." ++ unknownLevelSfx)
        ["dave", "undefined"])] :=
  ⟨by decide,
   invalid_level_report ⟨"I am sorry %s, I cannot do that.", "http://vault", "http://bot/"⟩
     ⟨"dave", some "tok"⟩ "tok" "bogus" "test" (.response 200 (some "\x7b\x7d")) "n0" 5 false
     rfl (by decide)⟩

/-- The message sent for a rejected level token does not contain the token:
with the sample config, it is exactly this string, which names the accepted
values but interpolates `undefined` in place of the input. -/
theorem invalid_level_message_value :
    requestAccess ⟨"I am sorry %s, I cannot do that.", "http://vault", "http://bot/"⟩
        ⟨"dave", some "tok"⟩ "bogus" "test" (.response 200 (some "\x7b\x7d")) "n0" 5 false =
      [Action.send ("I am sorry dave, I cannot do that.\nUnknown access level *undefined*.\nMust be read, ro, write, rw or admin")] := by
  decide

end DbHeimdall

namespace DbHeimdall

/-! ### Claim C4 -/

/-- C4 as frozen is false: a successful vault response with body `{}` — no
`lease_duration` at all — is not rejected.  The handler persists a lease
record whose `lease_duration` is `undefined` and still emits the
confirmation URL; no malformed-response failure occurs. -/
theorem lease_validation_counterexample :
    requestAccess ⟨"Sorry %s.", "http://vault", "http://bot/"⟩ ⟨"dave", some "tok"⟩
        "read" "test" (.response 200 (some "\x7b\x7d")) "n0" 5 false
      = [ .httpGet "http://vault/v1/db_test/creds/readonly" "tok",
          .roomSend "dave" "Here ya go:",
          .brainSet "heimdall_access_n0" (.obj (.cons "vault_path" (.str "db_test")
            (.cons "requested" (.num 5) (.cons "lease_duration" .undefined .nil)))),
          .roomSend "dave" "Direct your browser here to enable access to DB from your current IP address\nhttp://bot/heimdall/access/n0" ] := by
  decide

/-- C4 amended: on a successful vault status, only an unparsable body is
rejected (with the parse-error reply, persisting nothing); any body that
parses to an object is accepted as-is — the handler persists a lease record
whose `lease_duration` is copied verbatim from the body (so `undefined`
when the field is absent and unchecked when non-numeric) and emits the
confirmation URL. -/
theorem lease_duration_not_validated
    (cfg : ReqConfig) (user : Requester)
    (tok levelTok envTok level vaultPath : String)
    (status : Nat) (nonce : String) (now : Int) (dr : Bool)
    (htok : user.vaultToken = some tok)
    (hlev : normalizeLevel levelTok = some level)
    (henv : normalizeEnv envTok = some vaultPath)
    (hst : status ≤ 299) :
    (∀ bs fs, jsonParse bs = some (.obj fs) →
      requestAccess cfg user levelTok envTok (.response status (some bs)) nonce now dr =
        Action.httpGet (substFormat "%s/v1/%s/creds/%s" [cfg.vaultBaseUrl, vaultPath, level]) tok ::
        Action.roomSend user.name
          (String.intercalate "\n" ("Here ya go:" :: flattenFields fs)) ::
        Action.brainSet (brainKey nonce) (.obj (.cons "vault_path" (.str vaultPath)
          (.cons "requested" (.num now)
            (.cons "lease_duration" (fs.getF "lease_duration") .nil)))) ::
        Action.roomSend user.name (browserMsg ++ cfg.baseUrl ++ "heimdall/access/" ++ nonce) ::
        (if dr then [Action.reply privateChatMsg] else [])) ∧
    (∀ bs, jsonParse bs = none →
      requestAccess cfg user levelTok envTok (.response status (some bs)) nonce now dr =
        [Action.httpGet (substFormat "%s/v1/%s/creds/%s" [cfg.vaultBaseUrl, vaultPath, level]) tok,
         Action.reply parseErrorMsg, Action.reply bs]) := by
  have h401 : ¬(status = 401 ∨ status = 400 ∨ status = 404) := by omega
  have h503 : ¬(status = 503) := by omega
  have h299 : ¬(299 < status) := by omega
  constructor
  · intro bs fs hjson
    unfold requestAccess
    simp only [htok, hlev, henv]
    simp only [vaultCallback]
    rw [if_neg h401, if_neg h503, if_neg h299]
    simp only [hjson]
    unfold successTrace
    simp only [flattenVal, jsGetField]
  · intro bs hjson
    unfold requestAccess
    simp only [htok, hlev, henv]
    simp only [vaultCallback]
    rw [if_neg h401, if_neg h503, if_neg h299]
    simp only [hjson]

/-- Concrete instance of `lease_duration_not_validated`: an unparsable body
is the only shape that gets the parse-failure reply, with nothing persisted. -/
theorem lease_duration_not_validated_witness :
    normalizeLevel "read" = some "readonly" ∧ jsonParse "not json" = none ∧
    requestAccess ⟨"Sorry %s.", "http://vault", "http://bot/"⟩ ⟨"dave", some "tok"⟩
        "read" "test" (.response 200 (some "not json")) "n0" 5 false =
      [Action.httpGet (substFormat "%s/v1/%s/creds/%s" ["http://vault", "db_test", "readonly"]) "tok",
       Action.reply parseErrorMsg, Action.reply "not json"] :=
  ⟨by decide, by decide,
   (lease_duration_not_validated ⟨"Sorry %s.", "http://vault", "http://bot/"⟩
      ⟨"dave", some "tok"⟩ "tok" "read" "test" "readonly" "db_test" 200 "n0" 5 false
      rfl (by decide) (by decide) (by omega)).2 "not json" (by decide)⟩

end DbHeimdall

namespace DbHeimdall

/-! ### Claim C8 -/

/-- Traces differing on a Boolean observable are distinct. -/
theorem trace_ne_of_any (f : Action → Bool) (t1 t2 : List Action)
    (h1 : t1.any f = true) (h2 : t2.any f = false) : t1 ≠ t2 := by
  intro h
  rw [h] at h1
  rw [h1] at h2
  exact Bool.noConfusion h2

/-- The `'Error: ' + err` reply starts with E. -/
theorem replyHeadE_err (e : String) :
    replyHeadE (Action.reply ("Error: " ++ e)) = true := rfl

/-- The `'Status code: ' + code` reply does not start with E. -/
theorem replyHeadE_status (sc : Nat) :
    replyHeadE (Action.reply ("Status code: " ++ toString sc)) = false := rfl

/-- The `'Body: ' + body` reply does not start with E. -/
theorem replyHeadE_body (b : String) :
    replyHeadE (Action.reply ("Body: " ++ b)) = false := rfl

/-- The generic `unknownError` reply does not start with E. -/
theorem replyHeadE_main :
    replyHeadE (Action.reply
      "An error occurred talking to vault, please try again in a few moments") = false := rfl

/-- With an error present, the `unknownError` report always carries the
`Error:` line. -/
theorem unknownErrorTrace_hasErrLine (e : String) (st : Option Nat) (b : Option String) :
    (unknownErrorTrace (some e) st b).any replyHeadE = true := by
  unfold unknownErrorTrace
  cases st <;> cases b <;>
    simp [List.any_append, replyHeadE_err, replyHeadE_status, replyHeadE_body, replyHeadE_main]

/-- With no error, the `unknownError` report never carries an `Error:` line
(nor any other reply starting with E). -/
theorem unknownErrorTrace_noErrLine (st : Option Nat) (b : Option String) :
    (unknownErrorTrace none st b).any replyHeadE = false := by
  unfold unknownErrorTrace
  cases st <;> cases b <;>
    simp [List.any_append, replyHeadE_status, replyHeadE_body, replyHeadE_main]

/-- The `unknownError` report consists of replies only — no `msg.send`. -/
theorem unknownErrorTrace_noSend (err : Option String) (st : Option Nat) (b : Option String) :
    (unknownErrorTrace err st b).any Action.isSend = false := by
  unfold unknownErrorTrace
  cases err <;> cases st <;> cases b <;>
    simp [List.any_append, Action.isSend]

/-- The callback on a transport error is the `unknownError` report. -/
theorem vaultCallback_transport (cfg : ReqConfig) (user : Requester)
    (level vaultPath : String) (nonce : String) (now : Int) (dr : Bool)
    (e : String) (st : Option Nat) (b : Option String) :
    vaultCallback cfg user level vaultPath (.transportErr e st b) nonce now dr =
      unknownErrorTrace (some e) st b := by
  simp only [vaultCallback]

/-- The callback on statuses 401/400/404 is the single not-authorized
`msg.send`, built only from the config, user name, level, and vault path. -/
theorem vaultCallback_unauthorized (cfg : ReqConfig) (user : Requester)
    (level vaultPath : String) (nonce : String) (now : Int) (dr : Bool)
    (status : Nat) (b : Option String)
    (hs : status = 401 ∨ status = 400 ∨ status = 404) :
    vaultCallback cfg user level vaultPath (.response status b) nonce now dr =
      [Action.send (substFormat (cfg.sorryDave ++ unauthorizedSfx)
        [user.name, level, vaultPath])] := by
  simp only [vaultCallback]
  rw [if_pos hs]

/-- The callback on status 503 is the single sealed-vault `msg.send`. -/
theorem vaultCallback_sealed (cfg : ReqConfig) (user : Requester)
    (level vaultPath : String) (nonce : String) (now : Int) (dr : Bool)
    (b : Option String) :
    vaultCallback cfg user level vaultPath (.response 503 b) nonce now dr =
      [Action.send (substFormat (cfg.sorryDave ++ sealedSfx) [user.name])] := by
  simp only [vaultCallback]
  rw [if_neg (by decide)]
  simp

/-- The callback on any other status above 299 is the `unknownError` report
without an error line. -/
theorem vaultCallback_unknownStatus (cfg : ReqConfig) (user : Requester)
    (level vaultPath : String) (nonce : String) (now : Int) (dr : Bool)
    (status : Nat) (b : Option String)
    (h299 : 299 < status)
    (hne : ¬(status = 401 ∨ status = 400 ∨ status = 404)) (h503 : status ≠ 503) :
    vaultCallback cfg user level vaultPath (.response status b) nonce now dr =
      unknownErrorTrace none (some status) b := by
  simp only [vaultCallback]
  rw [if_neg hne, if_neg h503, if_pos h299]

/-- C8: the four failure classes of the vault call are reported distinctly.
A transport failure (`BackendUnreachable`) carries an `Error:` reply line
that the unexpected-status report (`UnknownBackendError`) never has; both
are reply-based reports, distinguishable from the single `msg.send` of
`Unauthorized` (statuses 401/400/404) and of `BackendUnavailable` (503);
and the Unauthorized report is built without any backend internals — it is
unchanged under any change of response body. -/
theorem error_taxonomy
    (cfg : ReqConfig) (user : Requester) (level vaultPath nonce : String)
    (now : Int) (dr : Bool)
    (e : String) (st1 : Option Nat) (b1 : Option String)
    (status : Nat) (b2 : Option String)
    (sU : Nat) (bU bU2 : Option String) :
    (299 < status → ¬(status = 401 ∨ status = 400 ∨ status = 404) → status ≠ 503 →
      vaultCallback cfg user level vaultPath (.transportErr e st1 b1) nonce now dr ≠
      vaultCallback cfg user level vaultPath (.response status b2) nonce now dr) ∧
    (sU = 401 ∨ sU = 400 ∨ sU = 404 →
      vaultCallback cfg user level vaultPath (.transportErr e st1 b1) nonce now dr ≠
      vaultCallback cfg user level vaultPath (.response sU bU) nonce now dr) ∧
    (vaultCallback cfg user level vaultPath (.transportErr e st1 b1) nonce now dr ≠
      vaultCallback cfg user level vaultPath (.response 503 bU) nonce now dr) ∧
    (299 < status → ¬(status = 401 ∨ status = 400 ∨ status = 404) → status ≠ 503 →
      sU = 401 ∨ sU = 400 ∨ sU = 404 →
      vaultCallback cfg user level vaultPath (.response status b2) nonce now dr ≠
      vaultCallback cfg user level vaultPath (.response sU bU) nonce now dr) ∧
    (299 < status → ¬(status = 401 ∨ status = 400 ∨ status = 404) → status ≠ 503 →
      vaultCallback cfg user level vaultPath (.response status b2) nonce now dr ≠
      vaultCallback cfg user level vaultPath (.response 503 bU) nonce now dr) ∧
    (sU = 401 ∨ sU = 400 ∨ sU = 404 →
      vaultCallback cfg user level vaultPath (.response sU bU) nonce now dr =
      vaultCallback cfg user level vaultPath (.response sU bU2) nonce now dr) := by
  refine ⟨?_, ?_, ?_, ?_, ?_, ?_⟩
  · intro h299 hne h503
    rw [vaultCallback_transport, vaultCallback_unknownStatus cfg user level vaultPath nonce now dr
      status b2 h299 hne h503]
    exact trace_ne_of_any replyHeadE _ _ (unknownErrorTrace_hasErrLine e st1 b1)
      (unknownErrorTrace_noErrLine (some status) b2)
  · intro hs
    rw [vaultCallback_transport, vaultCallback_unauthorized cfg user level vaultPath nonce now dr
      sU bU hs]
    exact (trace_ne_of_any Action.isSend _ _ (by simp [Action.isSend])
      (unknownErrorTrace_noSend (some e) st1 b1)).symm
  · rw [vaultCallback_transport, vaultCallback_sealed]
    exact (trace_ne_of_any Action.isSend _ _ (by simp [Action.isSend])
      (unknownErrorTrace_noSend (some e) st1 b1)).symm
  · intro h299 hne h503 hs
    rw [vaultCallback_unknownStatus cfg user level vaultPath nonce now dr status b2 h299 hne h503,
      vaultCallback_unauthorized cfg user level vaultPath nonce now dr sU bU hs]
    exact (trace_ne_of_any Action.isSend _ _ (by simp [Action.isSend])
      (unknownErrorTrace_noSend none (some status) b2)).symm
  · intro h299 hne h503
    rw [vaultCallback_unknownStatus cfg user level vaultPath nonce now dr status b2 h299 hne h503,
      vaultCallback_sealed]
    exact (trace_ne_of_any Action.isSend _ _ (by simp [Action.isSend])
      (unknownErrorTrace_noSend none (some status) b2)).symm
  · intro hs
    rw [vaultCallback_unauthorized cfg user level vaultPath nonce now dr sU bU hs,
      vaultCallback_unauthorized cfg user level vaultPath nonce now dr sU bU2 hs]

/-- Concrete instance of `error_taxonomy`: a timeout versus a 500, and a 401
report that ignores the body. -/
theorem error_taxonomy_witness :
    (vaultCallback ⟨"Sorry %s.", "http://vault", "http://bot/"⟩ ⟨"dave", some "tok"⟩
        "readonly" "db_test" (.transportErr "ETIMEDOUT" none none) "n0" 0 false ≠
      vaultCallback ⟨"Sorry %s.", "http://vault", "http://bot/"⟩ ⟨"dave", some "tok"⟩
        "readonly" "db_test" (.response 500 (some "oops")) "n0" 0 false) ∧
    (vaultCallback ⟨"Sorry %s.", "http://vault", "http://bot/"⟩ ⟨"dave", some "tok"⟩
        "readonly" "db_test" (.response 401 (some "secret detail")) "n0" 0 false =
      vaultCallback ⟨"Sorry %s.", "http://vault", "http://bot/"⟩ ⟨"dave", some "tok"⟩
        "readonly" "db_test" (.response 401 none) "n0" 0 false) :=
  ⟨(error_taxonomy ⟨"Sorry %s.", "http://vault", "http://bot/"⟩ ⟨"dave", some "tok"⟩
      "readonly" "db_test" "n0" 0 false "ETIMEDOUT" none none 500 (some "oops") 401
      (some "secret detail") none).1 (by omega) (by omega) (by omega),
   (error_taxonomy ⟨"Sorry %s.", "http://vault", "http://bot/"⟩ ⟨"dave", some "tok"⟩
      "readonly" "db_test" "n0" 0 false "ETIMEDOUT" none none 500 (some "oops") 401
      (some "secret detail") none).2.2.2.2.2 (by omega)⟩

end DbHeimdall
